import Mathlib

/-!
Formal model of `src/webservices_scraping.py` (class `APICollector`).

The Python program probes candidate API URLs over HTTP.  We embed the parts
the specification talks about shallowly:

* an HTTP response is a `Response` (status code, headers, elapsed seconds);
  the network is an oracle `Method → Except String Response`, where
  `Except.error msg` models a raised `requests.RequestException` with
  description `msg`;
* a Python dict built by the program is an insertion-ordered association
  list `List (String × Value)`; `dictGet` is `d.get(k)` (absent key gives
  `none`, matching Python `None`);
* `requests`' header mapping is case-insensitive, modelled by lowercasing
  keys on lookup;
* real time (`time.sleep`, `response.elapsed`) carries no information the
  claims use; elapsed seconds are kept as an abstract rational field.
-/

set_option autoImplicit false

namespace WebScrape

/-- Python's substring test `pat in s` (true for the empty pattern). -/
def strContains (s pat : String) : Bool :=
  pat.isEmpty || (s.splitOn pat).length != 1

/-- A Python value stored in one of the program's dicts. -/
inductive Value where
  | vstr (s : String)
  | vnat (n : Nat)
  | vbool (b : Bool)
  | vrat (q : Rat)
  deriving DecidableEq

/-- A Python dict in insertion order, as built by the program. -/
abbrev ProbeDict : Type := List (String × Value)

/-- Python `d.get(k)`: the value at the first matching key, else `none`. -/
def dictGet (d : ProbeDict) (k : String) : Option Value :=
  (d.find? (fun p => p.1 == k)).map Prod.snd

/-- Python truthiness of `d.get(k)`: `None` and falsy values are false. -/
def pyTruthy : Option Value → Bool
  | none => false
  | some (Value.vstr s) => !s.isEmpty
  | some (Value.vnat n) => n != 0
  | some (Value.vbool b) => b
  | some (Value.vrat q) => q != 0

/-- An HTTP response as seen through `requests`: status code, headers and
elapsed seconds (`response.elapsed.total_seconds()`, kept abstract). -/
structure Response where
  status_code : Nat
  headers : List (String × String)
  elapsed : Rat
  deriving DecidableEq

/-- `response.headers.get(key, '')` — case-insensitive header lookup. -/
def headerGet (headers : List (String × String)) (key : String) : String :=
  match headers.find? (fun p => p.1.toLower == key.toLower) with
  | some p => p.2
  | none => ""

/-- `key in response.headers` — case-insensitive header membership. -/
def headerHas (headers : List (String × String)) (key : String) : Bool :=
  headers.any (fun p => p.1.toLower == key.toLower)

/-- The HTTP methods `test_api_endpoint` can issue. -/
inductive Method where
  | head
  | get
  deriving DecidableEq

/-- The ten keyword substrings of `is_api_url` (source lines 91-94). -/
def api_indicators : List String :=
  ["api", "rest", "graphql", "webhook", "endpoint",
   "/v1/", "/v2/", "/v3/", ".json", ".xml"]

/-- `APICollector.is_api_url` (source lines 88-96): true when the lowercased
URL contains any of the fixed indicator substrings. -/
def is_api_url (url : String) : Bool :=
  api_indicators.any (fun indicator => strContains url.toLower indicator)

/-- The `api_info` dict built on the successful-response path of
`test_api_endpoint` (source lines 109-132), from the response the probe
ended up with. -/
def build_api_info (url : String) (r : Response) : ProbeDict :=
  [("url", Value.vstr url),
   ("status_code", Value.vnat r.status_code),
   ("content_type", Value.vstr (headerGet r.headers "content-type")),
   ("server", Value.vstr (headerGet r.headers "server")),
   ("is_functional", Value.vbool (decide (r.status_code < 400))),
   ("response_time", Value.vrat r.elapsed),
   ("supports_cors", Value.vbool (headerHas r.headers "access-control-allow-origin")),
   ("requires_auth", Value.vbool (decide (r.status_code = 401))),
   ("rate_limited", Value.vbool (decide (r.status_code = 429))),
   ("type", Value.vstr
     (if strContains (headerGet r.headers "content-type").toLower "json" then "REST/JSON"
      else if strContains (headerGet r.headers "content-type").toLower "xml" then "REST/XML"
      else if strContains url.toLower "graphql" then "GraphQL"
      else "Unknown"))]

/-- The dict returned on the `requests.RequestException` path of
`test_api_endpoint` (source lines 134-140). -/
def error_api_info (url : String) (e : String) : ProbeDict :=
  [("url", Value.vstr url),
   ("status_code", Value.vnat 0),
   ("error", Value.vstr e),
   ("is_functional", Value.vbool false)]

/-- One run of `test_api_endpoint`: the HTTP requests it issued, in order,
and the dict it returned. -/
structure ProbeRun where
  requests : List Method
  result : ProbeDict
  deriving DecidableEq

/-- `APICollector.test_api_endpoint` (source lines 98-140).  `net` is the
network oracle for this URL: `net m` is what `self.session.head`
(resp. `.get`) does, an exception being `Except.error`.  The code issues a
redirect-following HEAD; if that response has status `>= 400` it issues one
GET and builds the dict from the GET response, otherwise it builds the dict
from the HEAD response; any `requests.RequestException` yields the error
dict. -/
def test_api_endpoint (net : Method → Except String Response) (url : String) : ProbeRun :=
  match net Method.head with
  | Except.error e => ⟨[Method.head], error_api_info url e⟩
  | Except.ok r =>
    if 400 ≤ r.status_code then
      match net Method.get with
      | Except.error e => ⟨[Method.head, Method.get], error_api_info url e⟩
      | Except.ok r2 => ⟨[Method.head, Method.get], build_api_info url r2⟩
    else
      ⟨[Method.head], build_api_info url r⟩

/-- `APICollector.test_apis_parallel` (source lines 202-223).  The thread
pool completes all submitted probes; `completion_order` is the order in
which `as_completed` yields them — a permutation of the input URL list
(the theorems carry that constraint).  Only results whose
`is_functional` entry is truthy are appended to the returned list. -/
def test_apis_parallel (net : String → Method → Except String Response)
    (completion_order : List String) : List ProbeDict :=
  ((completion_order.map (fun u => (test_api_endpoint (net u) u).result)).filter
    (fun result => pyTruthy (dictGet result "is_functional")))

/-- A Python function return value: an explicit `return v`, or the implicit
`None` when control falls off the end of the function body. -/
inductive PyReturn (α : Type) where
  | value (a : α)
  | pyNone
  deriving DecidableEq

/-- The decoded top-level GitHub search response used by
`search_github_apis`: its status code and the repository full names under
the `items` key (`data.get('items', [])`). -/
structure GHSearch where
  status_code : Nat
  items : List String
  deriving DecidableEq

/-- The readme loop body of `search_github_apis` (source lines 158-174) over
each repository: `extract repo` abstracts fetching the repo's readme,
base64-decoding it and collecting the regex matches; a
`requests.RequestException` raised inside the loop is `Except.error` and
propagates out of the loop. -/
def collect_repo_matches (extract : String → Except String (List String)) :
    List String → Except String (List String)
  | [] => Except.ok []
  | repo :: rest =>
    match extract repo with
    | Except.error e => Except.error e
    | Except.ok ms =>
      match collect_repo_matches extract rest with
      | Except.error e => Except.error e
      | Except.ok more => Except.ok (ms ++ more)

/-- `APICollector.search_github_apis` (source lines 142-180).
`searchResponse` is the outcome of the top-level search GET (an exception
being `Except.error`).  Inside the `try`: on status 200 the readme loop
runs and `list(set(...))` of the matches is returned (dedup modelled as
`eraseDups`, Python set order being unspecified); on any other status no
statement runs after the `if`, so the function falls off the end and
returns Python `None`.  The `except` clause logs and returns `[]`. -/
def search_github_apis (searchResponse : Except String GHSearch)
    (extract : String → Except String (List String)) : PyReturn (List String) :=
  match searchResponse with
  | Except.error _ => PyReturn.value []
  | Except.ok s =>
    if s.status_code = 200 then
      match collect_repo_matches extract s.items with
      | Except.error _ => PyReturn.value []
      | Except.ok urls => PyReturn.value urls.eraseDups
    else
      PyReturn.pyNone

/-- The content `save_results` writes to a file.  A CSV payload of `none`
means the file was opened (created empty) but no header row and no rows
were written; `some (fieldnames, rows)` is a header row of `fieldnames`
followed by the records (cell rendering by `csv.DictWriter` abstracted). -/
inductive SavedFile where
  | jsonFile (apis : List ProbeDict)
  | csvFile (content : Option (List String × List ProbeDict))
  deriving DecidableEq

/-- The outcome of `save_results`: a returned filename together with the
files written, or an `UnboundLocalError` raised when the trailing
`logging.info`/`return` reference `filename` without it ever being
assigned (no file written in that case). -/
inductive SaveOutcome where
  | returned (filename : String) (written : List (String × SavedFile))
  | unboundLocal
  deriving DecidableEq

/-- `APICollector.save_results` (source lines 225-244).  `ts` is the
timestamp string `time.strftime("%Y%m%d_%H%M%S")`.  For `'json'` the list
is dumped to `apis_collected_<ts>.json`; for `'csv'` the file is opened and,
only when the list is non-empty, a header row of the first record's keys
plus all rows are written; for any other format `filename` is never
assigned and referencing it raises `UnboundLocalError`. -/
def save_results (apis : List ProbeDict) (format : String) (ts : String) : SaveOutcome :=
  if format = "json" then
    SaveOutcome.returned ("apis_collected_" ++ ts ++ ".json")
      [("apis_collected_" ++ ts ++ ".json", SavedFile.jsonFile apis)]
  else if format = "csv" then
    SaveOutcome.returned ("apis_collected_" ++ ts ++ ".csv")
      [("apis_collected_" ++ ts ++ ".csv",
        SavedFile.csvFile
          (match apis with
           | [] => none
           | a :: rest => some (a.map Prod.fst, a :: rest)))]
  else
    SaveOutcome.unboundLocal

/-- The key list of every successful-path probe dict, in insertion order. -/
def functional_keys : List String :=
  ["url", "status_code", "content_type", "server", "is_functional",
   "response_time", "supports_cors", "requires_auth", "rate_limited", "type"]

/-- Spec-side classifier, written from the spec's words for comparison with
the code: lowercased content type containing "json" gives REST/JSON, else
containing "xml" gives REST/XML, else "graphql" in the lowercased URL gives
GraphQL, else Unknown. -/
def spec_type_tag (lowCt url : String) : String :=
  if strContains lowCt "json" then "REST/JSON"
  else if strContains lowCt "xml" then "REST/XML"
  else if strContains url.toLower "graphql" then "GraphQL"
  else "Unknown"

/-! ### Shared helper lemmas -/

/-- Every `test_api_endpoint` result is either the successful-path dict
built from some response, or the exception-path dict for some message. -/
theorem probe_result_paths (net : Method → Except String Response) (url : String) :
    (∃ r, (test_api_endpoint net url).result = build_api_info url r)
    ∨ (∃ e, (test_api_endpoint net url).result = error_api_info url e) := by
  cases h : net Method.head with
  | error e => exact Or.inr ⟨e, by simp [test_api_endpoint, h]⟩
  | ok r =>
    by_cases h4 : 400 ≤ r.status_code
    · cases hg : net Method.get with
      | error e => exact Or.inr ⟨e, by simp [test_api_endpoint, h, h4, hg]⟩
      | ok r2 => exact Or.inl ⟨r2, by simp [test_api_endpoint, h, h4, hg]⟩
    · exact Or.inl ⟨r, by simp [test_api_endpoint, h, h4]⟩

/-- The successful-path dict has no `error` entry. -/
theorem dictGet_build_error (url : String) (r : Response) :
    dictGet (build_api_info url r) "error" = none := rfl

/-- The `is_functional` entry of the successful-path dict. -/
theorem dictGet_build_is_functional (url : String) (r : Response) :
    dictGet (build_api_info url r) "is_functional"
      = some (Value.vbool (decide (r.status_code < 400))) := rfl

/-- The `is_functional` entry of the exception-path dict. -/
theorem dictGet_error_is_functional (url e : String) :
    dictGet (error_api_info url e) "is_functional" = some (Value.vbool false) := rfl

/-- The `status_code` entry of the exception-path dict. -/
theorem dictGet_error_status (url e : String) :
    dictGet (error_api_info url e) "status_code" = some (Value.vnat 0) := rfl

/-- The key list of the successful-path dict, in insertion order. -/
theorem keys_build_api_info (url : String) (r : Response) :
    (build_api_info url r).map Prod.fst = functional_keys := rfl

/-! ### C1 -/

/-- C1, counterexample: the claim reads `is_functional = true` iff
`status_code < 400` including the transport-failure case.  On a transport
failure the result has `status_code = 0`, and `0 < 400`, yet
`is_functional` is `False`, so the biconditional fails at this input. -/
theorem functional_flag_sentinel_refuted :
    dictGet (test_api_endpoint (fun _ => Except.error "boom") "http://example.com/api").result
        "status_code" = some (Value.vnat 0)
    ∧ ¬ ((dictGet (test_api_endpoint (fun _ => Except.error "boom") "http://example.com/api").result
        "is_functional" = some (Value.vbool true)) ↔ 0 < 400) := by
  decide

/-- C1, amended: every probe result is built on one of two paths; on the
successful-response path `is_functional` is true iff the response status is
strictly below 400, while on the transport-failure path `is_functional` is
false even though the sentinel `status_code` 0 is below 400. -/
theorem functional_flag_by_path :
    (∀ (net : Method → Except String Response) (url : String),
        (∃ r, (test_api_endpoint net url).result = build_api_info url r)
        ∨ (∃ e, (test_api_endpoint net url).result = error_api_info url e))
    ∧ (∀ (url : String) (r : Response),
        dictGet (build_api_info url r) "is_functional"
          = some (Value.vbool (decide (r.status_code < 400))))
    ∧ (∀ (url e : String),
        dictGet (error_api_info url e) "is_functional" = some (Value.vbool false)
        ∧ dictGet (error_api_info url e) "status_code" = some (Value.vnat 0)) :=
  ⟨probe_result_paths, fun _ _ => rfl, fun _ _ => ⟨rfl, rfl⟩⟩

/-! ### C4 -/

/-- C4: a transport-level exception on the HEAD request, or on the
follow-up GET, makes `test_api_endpoint` return (not raise) the error dict
carrying the exception's description, and every result with a populated
`error` entry has `is_functional = false` and `status_code = 0`. -/
theorem transport_error_probe_result :
    ∀ (net : Method → Except String Response) (url : String),
      (∀ e, net Method.head = Except.error e →
        (test_api_endpoint net url).result = error_api_info url e)
      ∧ (∀ r e, net Method.head = Except.ok r → 400 ≤ r.status_code →
          net Method.get = Except.error e →
          (test_api_endpoint net url).result = error_api_info url e)
      ∧ (∀ e, dictGet (error_api_info url e) "error" = some (Value.vstr e))
      ∧ (∀ v, dictGet (test_api_endpoint net url).result "error" = some v →
          dictGet (test_api_endpoint net url).result "is_functional" = some (Value.vbool false)
          ∧ dictGet (test_api_endpoint net url).result "status_code" = some (Value.vnat 0)) := by
  intro net url
  refine ⟨?_, ?_, fun _ => rfl, ?_⟩
  · intro e he
    simp [test_api_endpoint, he]
  · intro r e hr h4 hg
    simp [test_api_endpoint, hr, h4, hg]
  · intro v hv
    rcases probe_result_paths net url with ⟨r, hpath⟩ | ⟨e, hpath⟩
    · rw [hpath, dictGet_build_error] at hv
      exact absurd hv (by simp)
    · rw [hpath]
      exact ⟨dictGet_error_is_functional url e, dictGet_error_status url e⟩

/-- C4, witness at a concrete network: a HEAD that raises "timed out". -/
theorem transport_error_probe_result_witness :
    (test_api_endpoint (fun _ => Except.error "timed out") "http://api.example.com").result
      = error_api_info "http://api.example.com" "timed out" :=
  (transport_error_probe_result (fun _ => Except.error "timed out")
    "http://api.example.com").1 "timed out" rfl

/-! ### C5 -/

/-- C5: the `type` entry of the dict built from a response follows the
spec's priority — lowercased content type containing "json" gives
REST/JSON, else "xml" gives REST/XML, else "graphql" in the lowercased URL
gives GraphQL, else Unknown. -/
theorem probe_type_tag_priority (url : String) (r : Response) :
    dictGet (build_api_info url r) "type"
      = some (Value.vstr (spec_type_tag (headerGet r.headers "content-type").toLower url)) :=
  rfl

/-! ### C6 -/

/-- C6: `is_api_url u` is true iff the lowercased URL contains at least one
of the ten fixed indicator substrings. -/
theorem is_api_url_iff_indicator (u : String) :
    is_api_url u = true
      ↔ ∃ ind ∈ (["api", "rest", "graphql", "webhook", "endpoint",
                  "/v1/", "/v2/", "/v3/", ".json", ".xml"] : List String),
          strContains u.toLower ind = true := by
  simp [is_api_url, api_indicators, List.any_eq_true]

/-! ### C2 -/

/-- C2: error handling of `search_github_apis` at concrete inputs.  On a
non-200 top-level search response the function does not return an empty
collection: control falls off the end of the function body (nothing logs)
and Python returns `None` — the absent value the claim rules out.  A
transport error, by contrast, does take the `except` path and returns `[]`,
as the claim says.  The third conjunct shows the non-200 path is taken even
when repositories are present. -/
theorem github_search_non200_returns_none :
    search_github_apis (Except.ok ⟨404, []⟩) (fun _ => Except.ok []) = PyReturn.pyNone
    ∧ search_github_apis (Except.error "ConnectionError") (fun _ => Except.ok [])
        = PyReturn.value []
    ∧ search_github_apis (Except.ok ⟨403, ["octo/repo"]⟩)
        (fun _ => Except.ok ["https://api.example.com/v1"]) = PyReturn.pyNone := by
  decide

/-! ### C3 -/

/-- C3, counterexample: with one candidate URL whose probe fails at the
transport level, the dispatcher returns the empty list, not one result per
input URL — non-functional results are dropped before the list is
returned. -/
theorem dispatcher_count_refuted :
    test_apis_parallel (fun _ _ => Except.error "connection refused") ["http://x/api"] = []
    ∧ (["http://x/api"] : List String).length = 1 := by
  decide

/-- C3, amended: for any completion order (a permutation of the N input
URLs) every submitted probe completes, one per input URL, but the
dispatcher returns only the results whose `is_functional` entry is truthy:
the returned list has length at most N, each member is functional, and
every functional completed probe result is returned. -/
theorem dispatcher_completes_all_returns_functional :
    ∀ (net : String → Method → Except String Response) (urls completion_order : List String),
      completion_order.Perm urls →
      (completion_order.map (fun u => (test_api_endpoint (net u) u).result)).length = urls.length
      ∧ (test_apis_parallel net completion_order).length ≤ urls.length
      ∧ (∀ d ∈ test_apis_parallel net completion_order,
          pyTruthy (dictGet d "is_functional") = true)
      ∧ (∀ u ∈ completion_order,
          pyTruthy (dictGet (test_api_endpoint (net u) u).result "is_functional") = true →
          (test_api_endpoint (net u) u).result ∈ test_apis_parallel net completion_order) := by
  intro net urls completion_order hperm
  refine ⟨?_, ?_, ?_, ?_⟩
  · rw [List.length_map]
    exact hperm.length_eq
  · calc (test_apis_parallel net completion_order).length
        ≤ (completion_order.map (fun u => (test_api_endpoint (net u) u).result)).length :=
          List.length_filter_le _ _
      _ = urls.length := by rw [List.length_map]; exact hperm.length_eq
  · intro d hd
    exact (List.mem_filter.mp hd).2
  · intro u hu ht
    exact List.mem_filter.mpr ⟨List.mem_map_of_mem _ hu, ht⟩

/-- C3, witness for the amended statement at a one-URL input, the
completion order being the only permutation of it. -/
theorem dispatcher_completes_all_witness :
    (test_apis_parallel (fun _ _ => Except.error "refused") ["http://y/api"]).length
      ≤ (["http://y/api"] : List String).length :=
  (dispatcher_completes_all_returns_functional (fun _ _ => Except.error "refused")
    ["http://y/api"] ["http://y/api"] (List.Perm.refl _)).2.1

/-! ### C7 -/

/-- C7: `test_api_endpoint` issues a HEAD request first; when the HEAD
response has status `>= 400` it issues exactly one follow-up GET and builds
the result from the GET response, and when the HEAD status is below 400 it
issues no GET and builds the result from the HEAD response. -/
theorem head_then_get_protocol :
    ∀ (net : Method → Except String Response) (url : String),
      (test_api_endpoint net url).requests.head? = some Method.head
      ∧ (∀ e, net Method.head = Except.error e →
          (test_api_endpoint net url).requests = [Method.head])
      ∧ (∀ r, net Method.head = Except.ok r →
          (400 ≤ r.status_code →
            (test_api_endpoint net url).requests = [Method.head, Method.get]
            ∧ ∀ r2, net Method.get = Except.ok r2 →
                (test_api_endpoint net url).result = build_api_info url r2)
          ∧ (r.status_code < 400 →
            (test_api_endpoint net url).requests = [Method.head]
            ∧ (test_api_endpoint net url).result = build_api_info url r)) := by
  intro net url
  refine ⟨?_, ?_, ?_⟩
  · cases h : net Method.head with
    | error e => simp [test_api_endpoint, h]
    | ok r =>
      by_cases h4 : 400 ≤ r.status_code
      · cases hg : net Method.get with
        | error e => simp [test_api_endpoint, h, h4, hg]
        | ok r2 => simp [test_api_endpoint, h, h4, hg]
      · simp [test_api_endpoint, h, h4]
  · intro e he
    simp [test_api_endpoint, he]
  · intro r hr
    constructor
    · intro h4
      cases hg : net Method.get with
      | error e =>
        exact ⟨by simp [test_api_endpoint, hr, h4, hg], fun r2 hr2 => by cases hr2⟩
      | ok r2 =>
        exact ⟨by simp [test_api_endpoint, hr, h4, hg],
               fun r3 hr3 => by
                 cases hr3
                 simp [test_api_endpoint, hr, h4, hg]⟩
    · intro h4
      have h4' : ¬ 400 ≤ r.status_code := not_le.mpr h4
      exact ⟨by simp [test_api_endpoint, hr, h4'], by simp [test_api_endpoint, hr, h4']⟩

/-- C7, witness: a HEAD answering 500 forces exactly one GET, and the
result is built from the GET response. -/
theorem head_then_get_protocol_witness :
    (test_api_endpoint (fun _ => Except.ok (⟨500, [], 0⟩ : Response)) "http://x/api").requests
      = [Method.head, Method.get]
    ∧ (test_api_endpoint (fun _ => Except.ok (⟨500, [], 0⟩ : Response)) "http://x/api").result
      = build_api_info "http://x/api" ⟨500, [], 0⟩ := by
  have h := ((head_then_get_protocol (fun _ => Except.ok (⟨500, [], 0⟩ : Response))
    "http://x/api").2.2 ⟨500, [], 0⟩ rfl).1 (by decide)
  exact ⟨h.1, h.2 ⟨500, [], 0⟩ rfl⟩

/-! ### C8 -/

/-- C8: exporting an empty list as CSV opens the timestamped file but
writes neither header nor rows, and still returns the filename; for a
non-empty list the header row is the first record's key list. -/
theorem csv_export_header_from_first_record :
    ∀ (ts : String) (a : ProbeDict) (rest : List ProbeDict),
      save_results [] "csv" ts
        = SaveOutcome.returned ("apis_collected_" ++ ts ++ ".csv")
            [("apis_collected_" ++ ts ++ ".csv", SavedFile.csvFile none)]
      ∧ save_results (a :: rest) "csv" ts
        = SaveOutcome.returned ("apis_collected_" ++ ts ++ ".csv")
            [("apis_collected_" ++ ts ++ ".csv",
              SavedFile.csvFile (some (a.map Prod.fst, a :: rest)))] :=
  fun _ _ _ => ⟨rfl, rfl⟩

/-! ### C9 -/

/-- C9: a probe result whose `is_functional` entry is `True` has exactly
the ten fixed keys, in insertion order, and no `error` entry; consequently
every record the dispatcher returns has that same uniform key list. -/
theorem functional_probe_fields :
    (∀ (net : Method → Except String Response) (url : String),
        dictGet (test_api_endpoint net url).result "is_functional"
            = some (Value.vbool true) →
          (test_api_endpoint net url).result.map Prod.fst = functional_keys
          ∧ dictGet (test_api_endpoint net url).result "error" = none)
    ∧ (∀ (net : String → Method → Except String Response)
        (completion_order : List String) (d : ProbeDict),
          d ∈ test_apis_parallel net completion_order →
          d.map Prod.fst = functional_keys ∧ dictGet d "error" = none) := by
  constructor
  · intro net url hfun
    rcases probe_result_paths net url with ⟨r, hpath⟩ | ⟨e, hpath⟩
    · rw [hpath]
      exact ⟨keys_build_api_info url r, dictGet_build_error url r⟩
    · rw [hpath, dictGet_error_is_functional] at hfun
      exact absurd hfun (by simp)
  · intro net completion_order d hd
    have hmem := List.mem_filter.mp hd
    rcases List.mem_map.mp hmem.1 with ⟨u, _, hu⟩
    rcases probe_result_paths (net u) u with ⟨r, hpath⟩ | ⟨e, hpath⟩
    · rw [← hu, hpath]
      exact ⟨keys_build_api_info u r, dictGet_build_error u r⟩
    · exfalso
      have := hmem.2
      rw [← hu, hpath, dictGet_error_is_functional] at this
      simp [pyTruthy] at this

/-- C9, witness: a 200/JSON response yields a functional result with the
ten uniform keys and no `error` entry. -/
theorem functional_probe_fields_witness :
    (test_api_endpoint
        (fun _ => Except.ok (⟨200, [("content-type", "application/json")], 1⟩ : Response))
        "https://api.example.com/v1/").result.map Prod.fst = functional_keys
    ∧ dictGet (test_api_endpoint
        (fun _ => Except.ok (⟨200, [("content-type", "application/json")], 1⟩ : Response))
        "https://api.example.com/v1/").result "error" = none :=
  functional_probe_fields.1
    (fun _ => Except.ok (⟨200, [("content-type", "application/json")], 1⟩ : Response))
    "https://api.example.com/v1/" (by decide)

/-! ### C10 -/

/-- C10: `save_results` ends normally only for the formats `json` and
`csv`; any other format string writes no file and raises
`UnboundLocalError` when the unassigned `filename` is referenced, instead
of returning a filename or a sentinel. -/
theorem save_results_total_only_json_csv :
    ∀ (apis : List ProbeDict) (format ts : String),
      (format ≠ "json" → format ≠ "csv" →
        save_results apis format ts = SaveOutcome.unboundLocal)
      ∧ (∃ w, save_results apis "json" ts
          = SaveOutcome.returned ("apis_collected_" ++ ts ++ ".json") w)
      ∧ (∃ w, save_results apis "csv" ts
          = SaveOutcome.returned ("apis_collected_" ++ ts ++ ".csv") w) := by
  intro apis format ts
  refine ⟨?_,
    ⟨[("apis_collected_" ++ ts ++ ".json", SavedFile.jsonFile apis)], ?_⟩,
    ⟨[("apis_collected_" ++ ts ++ ".csv",
       SavedFile.csvFile
         (match apis with
          | [] => none
          | a :: rest => some (a.map Prod.fst, a :: rest)))], ?_⟩⟩
  · intro hj hc
    simp [save_results, hj, hc]
  · simp [save_results]
  · simp [save_results]

/-- C10, witness: the format "xml" writes nothing and fails on the
unassigned filename. -/
theorem save_results_total_only_json_csv_witness :
    save_results [] "xml" "20240101_000000" = SaveOutcome.unboundLocal :=
  (save_results_total_only_json_csv [] "xml" "20240101_000000").1
    (by decide) (by decide)

end WebScrape
